import Mathlib

/-!
Shallow embedding of the grid-simulation core of the brickgame suite
(snake, breakout, vertical shooter, falling-piece puzzle) and proofs of
the specified properties of its collision, scoring, and teardown logic.

Coordinates are integer pairs `(i, j)`: `i` is the column (0..9) and `j`
the row (0..19, growing downward), exactly as the source's grid uses them.
-/

/-- A grid coordinate `(i, j)`. -/
abbrev Coord := ℤ × ℤ

/-- Movement directions; `neutral` is the source's empty string `""`. -/
inductive Direction where
  | up
  | down
  | left
  | right
  | neutral
deriving DecidableEq, Repr

/-- The `CONVERT` table from `constants.py`: direction to unit vector. -/
def CONVERT : Direction → Coord
  | Direction.down => (0, 1)
  | Direction.up => (0, -1)
  | Direction.right => (1, 0)
  | Direction.left => (-1, 0)
  | Direction.neutral => (0, 0)

/-- `FPS = int(1000/TICK_RATE)` with `TICK_RATE = 16` in `constants.py`. -/
def FPS : ℕ := 62

/-! ### Breakout (`src/games/breakout.py`) -/

/-- `Breakout.Target.check_hit`: the target's brick layout is the key set of
the source's `self.block` dict (a finite set of coordinates, since each key
holds one brick); the ball carries `coords` `c` and `velocity` `v`.  Returns
the surviving bricks and the new velocity, following the source's four-way
branch: diagonal corner hit, horizontal-only hit, vertical-only hit, and
exact-vertex hit.  As in the source, the vertex brick `(i+a, j+b)` is tested
for after the two corner bricks have been deleted. -/
def checkHit (blocks : Finset Coord) (c v : Coord) : Finset Coord × Coord :=
  let a := v.1
  let b := v.2
  let i := c.1
  let j := c.2
  if (i + a, j) ∈ blocks ∧ (i, j + b) ∈ blocks then
    let blocks1 := (blocks.erase (i + a, j)).erase (i, j + b)
    if (i + a, j + b) ∈ blocks1 then
      (blocks1.erase (i + a, j + b), (-a, -b))
    else
      (blocks1, (-a, -b))
  else if (i + a, j) ∈ blocks ∧ (i, j + b) ∉ blocks then
    (blocks.erase (i + a, j), (-a, b))
  else if (i + a, j) ∉ blocks ∧ (i, j + b) ∈ blocks then
    (blocks.erase (i, j + b), (a, -b))
  else if (i + a, j + b) ∈ blocks then
    (blocks.erase (i + a, j + b), (-a, -b))
  else
    (blocks, v)

/-- `Breakout.Ball.check_border_reflect`: reverse `v.1` when touching a
lateral border moving outward; force `v.2 = 1` at the top border moving up. -/
def borderReflect (c v : Coord) : Coord :=
  let v1 := if (c.1 = 0 ∧ v.1 = -1) ∨ (c.1 = 9 ∧ v.1 = 1) then -v.1 else v.1
  let v2 := if c.2 = 0 ∧ v.2 = -1 then 1 else v.2
  (v1, v2)

/-- The paddle's initial blocks `[Block(3,19), Block(4,19), Block(5,19)]`. -/
def initPaddle : List Coord := [(3, 19), (4, 19), (5, 19)]

/-- `Paddle._size = len(self.blocks) - 1`, computed before the ball is
appended, hence `2`. -/
def paddleSize : ℕ := initPaddle.length - 1

/-- `Breakout.Paddle.check_paddle_reflect` (with `dragging = False`; when
dragging, the velocity is untouched).  `coords` is the paddle's coordinate
list (ball possibly appended at the end), `c`/`v` the ball's coords and
velocity.  Contact from above or at a vertex against the first
`paddleSize` cells sets `v.2 := -1`; hitting the first cell forces
`v.1 := -1`, hitting cell `paddleSize - 1` forces `v.1 := 1`. -/
def paddleReflect (dragging : Bool) (coords : List Coord) (c v : Coord) : Coord :=
  if dragging then v
  else
    let a := v.1
    let b := v.2
    let i := c.1
    let j := c.2
    let front := coords.take paddleSize
    if (i, j + b) ∈ front ∨ (i + a, j + b) ∈ front then
      let v1 : ℤ :=
        if (i, j + b) = coords.getD 0 (0, 0) ∨ (i + a, j + b) = coords.getD 0 (0, 0) then
          -1
        else if (i, j + b) = coords.getD (paddleSize - 1) (0, 0)
            ∨ (i + a, j + b) = coords.getD (paddleSize - 1) (0, 0) then
          1
        else a
      (v1, -1)
    else v

/-- `Breakout.start_speed`. -/
def startSpeed : ℚ := 20

/-- The launch branch of `Breakout.Paddle.move`: when the launch key doubles
the speed past `start_speed` at stage start (ball still attached, so the
paddle's coordinate list has 4 entries, and no brick destroyed yet, so
`number = total`), the ball's velocity is set to `[1, -1]`; otherwise the
ball's velocity is left alone. -/
def paddleLaunch (speed : ℚ) (numCoords number total : ℕ) (v : Coord) : Coord :=
  if startSpeed < speed ∧ numCoords = 4 ∧ number = total then (1, -1) else v

/-- The movement part of `Breakout.Paddle.move`: read the leftmost cell's
column `i_0`, and shift every block of the paddle (ball included, when
attached) by the direction's horizontal unit only if
`0 ≤ i_0 + a < 10 - _size`. -/
def paddleMove (dir : Direction) (blocks : List Coord) : List Coord :=
  let a := (CONVERT dir).1
  let i0 := (blocks.headD (0, 0)).1
  if 0 ≤ i0 + a ∧ i0 + a < 10 - (paddleSize : ℤ) then
    blocks.map (fun p => (p.1 + a, p.2))
  else blocks

/-- Both velocity components lie in `\x7b-1, 1\x7d`. -/
def unitVelocity (v : Coord) : Prop :=
  (v.1 = -1 ∨ v.1 = 1) ∧ (v.2 = -1 ∨ v.2 = 1)

instance (v : Coord) : Decidable (unitVelocity v) := by
  unfold unitVelocity
  infer_instance

/-- Per-brick points of `Breakout.update_score`: 15/20/30 for levels 1/2/3. -/
def brickPoints (level : ℤ) : ℤ :=
  if level = 1 then 15
  else if level = 2 then 20
  else if level = 3 then 30
  else 0

/-- `Breakout.update_score`: `number` is the brick count recorded before the
hit, `n` the bricks remaining now; the loop `for _ in range(number, n, -1)`
adds the per-level value once per destroyed brick.  Returns the new score
and the updated recorded count. -/
def breakoutUpdateScore (level score : ℤ) (number n : ℕ) : ℤ × ℕ :=
  (score + (number - n : ℕ) * brickPoints level, n)

/-- `Breakout.manage_levels`: when the target group is empty, increment the
level and add the clear bonus `3000 + 3000*(self.level - 1)` computed from
the already-incremented level.  Returns `(level, score)`. -/
def manageLevels (targetEmpty : Bool) (level score : ℤ) : ℤ × ℤ :=
  if targetEmpty then
    let lvl := level + 1
    (lvl, score + (3000 + 3000 * (lvl - 1)))
  else (level, score)

/-! ### Snake (`src/games/snake.py`) -/

/-- The snake's state: `body` is the ordered segment list (head first),
`food` the blinking block's coordinate, `growing` the class flag, `dir`
the class-level direction. -/
structure SnakeState where
  body : List Coord
  food : Coord
  growing : Bool
  dir : Direction
deriving DecidableEq, Repr

/-- The food respawn rejection loop of `Snake.check_eat`: `respawn()` once,
then `while food.coords in snake.coords: respawn()`.  The random draws are
supplied as the proposal list `ps`; the result is the first proposal outside
the body, or `none` when the supplied draws are exhausted. -/
def respawnLoop (body : List Coord) : List Coord → Option Coord
  | [] => Option.none
  | p :: ps => if p ∈ body then respawnLoop body ps else some p

/-- `Snake.check_eat`: when the head's coordinate equals the food's, set
`growing` and respawn the food until it avoids the body.  `none` models the
(probability-zero) case where the supplied random draws run out. -/
def checkEat (ps : List Coord) (s : SnakeState) : Option SnakeState :=
  if s.body.headD (0, 0) = s.food then
    match respawnLoop s.body ps with
    | some c => some { s with growing := true, food := c }
    | Option.none => Option.none
  else some s

/-- `Snake.Body.move`: prepend a new head at `old head + CONVERT[direction]`;
if `growing`, clear the flag and keep the tail, else drop the tail. -/
def bodyMove (s : SnakeState) : SnakeState :=
  let d := CONVERT s.dir
  let h := s.body.headD (0, 0)
  let body1 := (d.1 + h.1, d.2 + h.2) :: s.body
  if s.growing then { s with body := body1, growing := false }
  else { s with body := body1.dropLast }

/-- One frame of `Snake.manage` while running and unpaused: `check_eat()`
runs every frame, and `snake.move()` runs only on movement ticks
(`t % int(FPS/speed) == 0`), after it. -/
def snakeFrame (movement : Bool) (ps : List Coord) (s : SnakeState) : Option SnakeState :=
  (checkEat ps s).map (fun s1 => if movement then bodyMove s1 else s1)

/-- The growth bonus tiers of `Snake.update_score`, keyed on the current
body length `n`. -/
def growthBonus (n : ℕ) : ℤ :=
  if 3 < n ∧ n ≤ 25 then 15
  else if 25 < n ∧ n ≤ 50 then 45
  else if 50 < n ∧ n ≤ 100 then 100
  else if 100 < n ∧ n < 200 then 250
  else 0

/-- `Snake.update_score`: add the tier bonus only while `growing` is set. -/
def snakeUpdateScore (growing : Bool) (n : ℕ) (score : ℤ) : ℤ :=
  if growing then score + growthBonus n else score

/-! ### Bomb / BlastCharge (`src/block.py`) -/

/-- A live `Bomb` is its list of 16 component cells; the anchor (top-left
of the 4x4 footprint) is the first entry, as built by the constructor. -/
abbrev BombCells := List Coord

/-- The 16 cells a `Bomb(i, j, group)` creates, in construction order:
4 blinking corners, 4 core blocks, 8 shaded fill blocks. -/
def bombSpawn (i j : ℤ) : BombCells :=
  [(i, j), (i, j + 3), (i + 3, j), (i + 3, j + 3),
   (i + 1, j + 1), (i + 1, j + 2), (i + 2, j + 1), (i + 2, j + 2),
   (i, j + 1), (i, j + 2), (i + 3, j + 1), (i + 3, j + 2),
   (i + 1, j), (i + 2, j), (i + 1, j + 3), (i + 2, j + 3)]

/-- Rigid shift of one bomb by a direction's unit vector. -/
def shiftBomb (dir : Direction) (bomb : BombCells) : BombCells :=
  bomb.map (fun p => (p.1 + (CONVERT dir).1, p.2 + (CONVERT dir).2))

/-- The self-destruction test of `Bomb.move`, applied to the bomb after its
shift: the anchor row `k = bomb[0].coords[1]` has left the grid in the
direction of travel (`k < 0` moving up, `k >= 17` moving down). -/
def exitsGrid (dir : Direction) (bomb : BombCells) : Bool :=
  let k := (bomb.headD (0, 0)).2
  (dir == Direction.up && decide (k < 0)) || (dir == Direction.down && decide (17 ≤ k))

/-- `Bomb.move`: every live bomb in the registry is shifted one step; a bomb
whose anchor has exited the grid has all its cells killed and its entry
removed from `Bomb._bombs`.  The source iterates the registry in reverse and
mutates it in place, which keeps the survivors' relative order, so the
per-bomb recursion below is the same function. -/
def bombsMove (dir : Direction) : List BombCells → List BombCells
  | [] => []
  | bomb :: rest =>
    let moved := shiftBomb dir bomb
    if exitsGrid dir moved then bombsMove dir rest
    else moved :: bombsMove dir rest

/-! ### Engine teardown (`src/games/game_engine.py`) -/

/-- The engine state visible to teardown: the named entity collections
(each a list of cell coordinates), the process-wide `Bomb._bombs` registry,
and the `running` flag. -/
structure EngineState where
  entities : List (List Coord)
  bombs : List BombCells
  running : Bool
deriving DecidableEq, Repr

/-- `for entity in self.entities.values(): entity.empty()` — teardown
empties every named sprite group.  Nothing touches `Bomb._bombs`. -/
def emptyGroups (s : EngineState) : EngineState :=
  { s with entities := s.entities.map (fun _ => []) }

/-- `Game.reset`: set `running = True` and empty the groups (then
`__init__` respawns the game's own entities; no path clears the bomb
registry — `Bomb(-5, -5)` with no group does not register). -/
def gameReset (s : EngineState) : EngineState :=
  { emptyGroups s with running := true }

/-- `Game.toggle_victory`: `running = False`, empty all groups. -/
def toggleVictory (s : EngineState) : EngineState :=
  { emptyGroups s with running := false }

/-- `Game.toggle_defeat`: `running = False`, empty all groups. -/
def toggleDefeat (s : EngineState) : EngineState :=
  { emptyGroups s with running := false }

/-! ### Vertical shooter (`src/games/asteroids.py`) -/

/-- The bomb spawn probability computed by `Asteroids.try_spawn_bomb` at
game tick `t`: `spawn_rate = 1/3000`, plus `1/6000` when
`t <= 180*FPS and t % 60*FPS == 0` — by Python precedence the second
conjunct is `(t % 60) * FPS == 0`. -/
def spawnRate (t : ℕ) : ℚ :=
  if t ≤ 180 * FPS ∧ (t % 60) * FPS = 0 then 1 / 3000 + 1 / 6000 else 1 / 3000

/-! ### Tetris line clearing (`src/games/tetris.py`) -/

/-- The fallen structure is the `"fallen"` sprite group: a collection of
cells, modelled as the list of its blocks' coordinates (the game never puts
two fallen blocks on one coordinate, but nothing below needs that). -/
abbrev Fallen := List Coord

/-- Number of fallen blocks on row `b` (the source's `len(line)`). -/
def rowCount (s : Fallen) (b : ℤ) : ℕ :=
  s.countP (fun p => p.2 = b)

/-- One iteration of the clearing loop of `remove_full_lines` for the full
row `b`: remove that row's blocks and lower every block above it
(`j < b`) by one.  At the moment row `b` is processed, the blocks of its
recorded `line` are exactly the blocks currently on row `b` (earlier
iterations only moved blocks to rows `<= b0 < b`), so removal by current
coordinate is the same operation as the source's removal by reference. -/
def clearRow (b : ℤ) (s : Fallen) : Fallen :=
  (s.filter (fun p => p.2 ≠ b)).map (fun p => if p.2 < b then (p.1, p.2 + 1) else p)

/-- The rows collected in `full_lines`: `b` in `range(20)` whose line has
exactly 10 blocks, scanned in increasing order. -/
def fullLines (s : Fallen) : List ℤ :=
  (List.map (fun n : ℕ => (n : ℤ)) (List.range 20)).filter (fun b => rowCount s b = 10)

/-- `Tetris.FallenBlocks.remove_full_lines`: detect the full rows, clear
them bottom of the loop order (increasing `b`), and return the new fallen
structure with the number of cleared lines (the source's return value). -/
def removeFullLines (s : Fallen) : Fallen × ℕ :=
  ((fullLines s).foldl (fun acc b => clearRow b acc) s, (fullLines s).length)

/-! ### Helper lemmas -/

/-- Negation keeps a component in the unit set. -/
theorem neg_unit_comp (x : ℤ) (h : x = -1 ∨ x = 1) : -x = -1 ∨ -x = 1 := by
  rcases h with rfl | rfl
  · right
    norm_num
  · left
    norm_num

/-- Claim C1: when both `(i+vi, j)` and `(i, j+vj)` hold target bricks
(diagonal corner hit), `check_hit` reverses both velocity components and
destroys both corner bricks, plus the brick at `(i+vi, j+vj)` when present
(erasing an absent key is the identity, so the unconditional triple erase
states exactly that). -/
theorem checkHit_diagonal_corner (blocks : Finset Coord) (c v : Coord)
    (h1 : (c.1 + v.1, c.2) ∈ blocks) (h2 : (c.1, c.2 + v.2) ∈ blocks) :
    checkHit blocks c v =
      (((blocks.erase (c.1 + v.1, c.2)).erase (c.1, c.2 + v.2)).erase
          (c.1 + v.1, c.2 + v.2),
        (-v.1, -v.2)) := by
  simp only [checkHit]
  rw [if_pos ⟨h1, h2⟩]
  split
  · rfl
  · rename_i hd
    rw [Finset.erase_eq_of_not_mem hd]

/-- Claim C1 witness, Scenario B: ball at `(5,1)` with velocity `(1,-1)` and
bricks at `(6,1)` and `(5,0)`: both bricks are destroyed and the velocity
becomes `(-1,1)`. -/
theorem checkHit_diagonal_corner_witness :
    checkHit ({(6, 1), (5, 0)} : Finset Coord) (5, 1) (1, -1) = (∅, (-1, 1)) := by
  have h := checkHit_diagonal_corner ({(6, 1), (5, 0)} : Finset Coord) (5, 1) (1, -1)
    (by decide) (by decide)
  exact h.trans (by decide)

/-- Claim C3: the ball's velocity is set to `(1,-1)` on release from the
paddle, and each of `check_hit`, `check_paddle_reflect`, and
`check_border_reflect` keeps both velocity components in the unit set, so
every state reached after launch has both components in that set. -/
theorem launched_velocity_unit :
    (∀ (speed : ℚ) (numCoords number total : ℕ) (v : Coord),
      startSpeed < speed → numCoords = 4 → number = total →
        paddleLaunch speed numCoords number total v = (1, -1) ∧ unitVelocity (1, -1))
    ∧ (∀ (blocks : Finset Coord) (c v : Coord),
        unitVelocity v → unitVelocity (checkHit blocks c v).2)
    ∧ (∀ (dragging : Bool) (coords : List Coord) (c v : Coord),
        unitVelocity v → unitVelocity (paddleReflect dragging coords c v))
    ∧ (∀ c v : Coord, unitVelocity v → unitVelocity (borderReflect c v)) := by
  refine ⟨?_, ?_, ?_, ?_⟩
  · intro speed numCoords number total v hs h4 ht
    refine ⟨?_, by decide⟩
    unfold paddleLaunch
    rw [if_pos ⟨hs, h4, ht⟩]
  · intro blocks c v hv
    obtain ⟨h1, h2⟩ := hv
    simp only [checkHit]
    split
    · split
      · exact ⟨neg_unit_comp _ h1, neg_unit_comp _ h2⟩
      · exact ⟨neg_unit_comp _ h1, neg_unit_comp _ h2⟩
    · split
      · exact ⟨neg_unit_comp _ h1, h2⟩
      · split
        · exact ⟨h1, neg_unit_comp _ h2⟩
        · split
          · exact ⟨neg_unit_comp _ h1, neg_unit_comp _ h2⟩
          · exact ⟨h1, h2⟩
  · intro dragging coords c v hv
    obtain ⟨h1, h2⟩ := hv
    simp only [paddleReflect]
    split
    · exact ⟨h1, h2⟩
    · split
      · refine ⟨?_, Or.inl rfl⟩
        split
        · exact Or.inl rfl
        · split
          · exact Or.inr rfl
          · exact h1
      · exact ⟨h1, h2⟩
  · intro c v hv
    obtain ⟨h1, h2⟩ := hv
    simp only [borderReflect, unitVelocity]
    refine ⟨?_, ?_⟩
    · split
      · exact neg_unit_comp _ h1
      · exact h1
    · split
      · exact Or.inr rfl
      · exact h2

/-- Claim C3 witness: concrete instances of the launch value and of each
preservation step. -/
theorem launched_velocity_unit_witness :
    (paddleLaunch 40 4 72 72 (0, 0) = (1, -1) ∧ unitVelocity (1, -1))
    ∧ unitVelocity (checkHit ({(4, 4)} : Finset Coord) (5, 5) (-1, -1)).2
    ∧ unitVelocity (paddleReflect false [(3, 19), (4, 19), (5, 19)] (4, 18) (1, 1))
    ∧ unitVelocity (borderReflect (0, 5) (-1, 1)) := by
  obtain ⟨hl, hh, hp, hb⟩ := launched_velocity_unit
  exact ⟨hl 40 4 72 72 (0, 0) (by norm_num [startSpeed]) rfl rfl,
    hh _ (5, 5) (-1, -1) (by decide),
    hp false _ (4, 18) (1, 1) (by decide),
    hb (0, 5) (-1, 1) (by decide)⟩

/-- Claim C4 (code bug): the implemented spawn probability is `1/3000`
(~0.033%) on a generic tick, both before and after the 3-minute mark, and
`1/2000` (0.05%) exactly at ticks that are multiples of 60 *within* the
first 3 minutes; it never equals the documented 0.1% (= 1/1000) or
0.15% (= 15/10000), and the increase applies before, not after, 3 minutes. -/
theorem trySpawnBomb_rate_eval :
    spawnRate (180 * FPS + 1) = 1 / 3000
    ∧ spawnRate 1 = 1 / 3000
    ∧ spawnRate 60 = 1 / 2000
    ∧ ((1 : ℚ) / 3000 ≠ 15 / 10000 ∧ (1 : ℚ) / 3000 ≠ 1 / 1000)
    ∧ ((1 : ℚ) / 2000 ≠ 15 / 10000 ∧ (1 : ℚ) / 2000 ≠ 1 / 1000) := by
  refine ⟨?_, ?_, ?_, ⟨?_, ?_⟩, ⟨?_, ?_⟩⟩ <;> norm_num [spawnRate, FPS]

/-- Claim C5: clearing a stage increments the level and adds the bonus
`3000 + 3000*(level - 1)` computed at the incremented level; per destroyed
brick, `update_score` adds 15, 20, or 30 points on levels 1, 2, 3. -/
theorem breakout_scoring :
    (∀ level score : ℤ,
      (manageLevels true level score).1 = level + 1
      ∧ (manageLevels true level score).2
          = score + (3000 + 3000 * ((manageLevels true level score).1 - 1)))
    ∧ (∀ (score : ℤ) (n : ℕ),
      (breakoutUpdateScore 1 score (n + 1) n).1 = score + 15
      ∧ (breakoutUpdateScore 2 score (n + 1) n).1 = score + 20
      ∧ (breakoutUpdateScore 3 score (n + 1) n).1 = score + 30)
    ∧ (∀ (level score : ℤ) (number n : ℕ),
      (breakoutUpdateScore level score number n).1
        = score + (number - n : ℕ) * brickPoints level) := by
  refine ⟨?_, ?_, ?_⟩
  · intro level score
    exact ⟨rfl, rfl⟩
  · intro score n
    have hs : n + 1 - n = 1 := by omega
    refine ⟨?_, ?_, ?_⟩ <;> simp [breakoutUpdateScore, brickPoints, hs]
  · intro level score number n
    rfl

/-- Claim C7: on a growth event (`growing` set), `update_score` adds the
tier bonus keyed on the current body length: 15 for lengths in (3,25],
45 for (25,50], 100 for (50,100], and 250 for (100,200). -/
theorem snake_growth_bonus (n : ℕ) (score : ℤ) :
    (3 < n ∧ n ≤ 25 → snakeUpdateScore true n score = score + 15)
    ∧ (25 < n ∧ n ≤ 50 → snakeUpdateScore true n score = score + 45)
    ∧ (50 < n ∧ n ≤ 100 → snakeUpdateScore true n score = score + 100)
    ∧ (100 < n ∧ n < 200 → snakeUpdateScore true n score = score + 250) := by
  refine ⟨?_, ?_, ?_, ?_⟩ <;> intro h
  · simp only [snakeUpdateScore, growthBonus, if_true]
    rw [if_pos h]
  · simp only [snakeUpdateScore, growthBonus, if_true]
    rw [if_neg (by omega), if_pos h]
  · simp only [snakeUpdateScore, growthBonus, if_true]
    rw [if_neg (by omega), if_neg (by omega), if_pos h]
  · simp only [snakeUpdateScore, growthBonus, if_true]
    rw [if_neg (by omega), if_neg (by omega), if_neg (by omega), if_pos h]

/-- Claim C7 witness: the four tiers at lengths 10, 30, 60, and 150. -/
theorem snake_growth_bonus_witness :
    snakeUpdateScore true 10 0 = 15
    ∧ snakeUpdateScore true 30 0 = 45
    ∧ snakeUpdateScore true 60 0 = 100
    ∧ snakeUpdateScore true 150 0 = 250 := by
  refine ⟨?_, ?_, ?_, ?_⟩
  · have h := (snake_growth_bonus 10 0).1 (by omega)
    simpa using h
  · have h := (snake_growth_bonus 30 0).2.1 (by omega)
    simpa using h
  · have h := (snake_growth_bonus 60 0).2.2.1 (by omega)
    simpa using h
  · have h := (snake_growth_bonus 150 0).2.2.2 (by omega)
    simpa using h

/-- Claim C10 (implicit): `Paddle.move` keeps the paddle inside the grid.
If the three paddle cells sit at consecutive columns `i0, i0+1, i0+2` on
row 19, all within `[0, 10)`, then after a move in any direction (`rest`
is whatever follows them in the block list, e.g. the dragged ball) the
three paddle cells still have all columns in `[0, 10)`, with the leftmost
column in `[0, 10 - _size)`. -/
theorem paddleMove_stays_in_grid (dir : Direction) (i0 : ℤ) (rest : List Coord)
    (hlo : 0 ≤ i0) (hhi : i0 + 2 < 10) :
    0 ≤ ((paddleMove dir ((i0, 19) :: (i0 + 1, 19) :: (i0 + 2, 19) :: rest)).headD (0, 0)).1
    ∧ ((paddleMove dir ((i0, 19) :: (i0 + 1, 19) :: (i0 + 2, 19) :: rest)).headD (0, 0)).1
        < 10 - (paddleSize : ℤ)
    ∧ (paddleMove dir ((i0, 19) :: (i0 + 1, 19) :: (i0 + 2, 19) :: rest)).take 3
        = [(((paddleMove dir ((i0, 19) :: (i0 + 1, 19) :: (i0 + 2, 19) :: rest)).headD (0, 0)).1, 19),
           (((paddleMove dir ((i0, 19) :: (i0 + 1, 19) :: (i0 + 2, 19) :: rest)).headD (0, 0)).1 + 1, 19),
           (((paddleMove dir ((i0, 19) :: (i0 + 1, 19) :: (i0 + 2, 19) :: rest)).headD (0, 0)).1 + 2, 19)] := by
  have hps : (paddleSize : ℤ) = 2 := by decide
  simp only [paddleMove, List.headD_cons]
  split
  · rename_i hguard
    rw [hps] at hguard
    simp only [List.map_cons, List.take, List.headD_cons]
    refine ⟨by omega, by rw [hps]; omega, ?_⟩
    norm_num
    exact ⟨by ring, by ring⟩
  · rename_i hguard
    simp only [List.take, List.headD_cons]
    exact ⟨by omega, by rw [hps]; omega, by norm_num⟩

/-- Claim C10 witness: paddle at columns 3..5 dragging the ball, moving
right; all paddle columns stay in `[0, 10)`. -/
theorem paddleMove_stays_in_grid_witness :
    0 ≤ ((paddleMove Direction.right ((3, 19) :: (4, 19) :: (5, 19) :: [(4, 18)])).headD (0, 0)).1
    ∧ ((paddleMove Direction.right ((3, 19) :: (4, 19) :: (5, 19) :: [(4, 18)])).headD (0, 0)).1
        < 10 - (paddleSize : ℤ)
    ∧ (paddleMove Direction.right ((3, 19) :: (4, 19) :: (5, 19) :: [(4, 18)])).take 3
        = [(((paddleMove Direction.right ((3, 19) :: (4, 19) :: (5, 19) :: [(4, 18)])).headD (0, 0)).1, 19),
           (((paddleMove Direction.right ((3, 19) :: (4, 19) :: (5, 19) :: [(4, 18)])).headD (0, 0)).1 + 1, 19),
           (((paddleMove Direction.right ((3, 19) :: (4, 19) :: (5, 19) :: [(4, 18)])).headD (0, 0)).1 + 2, 19)] :=
  paddleMove_stays_in_grid Direction.right 3 [(4, 18)] (by norm_num) (by norm_num)

/-- Claim C8: `Bomb.move` shifts every registered charge one step and
removes exactly those whose anchor has left the grid in the direction of
travel (row < 0 moving up, row ≥ 17 moving down); a removed charge's 16
cells are all destroyed along with its registry entry.  Scenario D: a
charge anchored at `(4, 10)` moving up survives 10 steps (anchor row 0)
and is removed from the registry on the step that crosses to row -1. -/
theorem bombsMove_selfdestruct :
    (∀ (dir : Direction) (bombs : List BombCells),
      bombsMove dir bombs
        = (bombs.map (shiftBomb dir)).filter (fun b => ! exitsGrid dir b))
    ∧ (∀ i j : ℤ, (bombSpawn i j).length = 16)
    ∧ (bombsMove Direction.up)^[10] [bombSpawn 4 10] = [bombSpawn 4 0]
    ∧ (bombsMove Direction.up)^[11] [bombSpawn 4 10] = [] := by
  refine ⟨?_, ?_, ?_, ?_⟩
  · intro dir bombs
    induction bombs with
    | nil => rfl
    | cons bomb rest ih =>
      simp only [bombsMove, List.map_cons, List.filter_cons]
      cases h : exitsGrid dir (shiftBomb dir bomb) <;> simp [h, ih]
  · intro i j
    rfl
  · decide
  · decide

/-- Claim C9 (counterexample): with one live charge registered, neither
`toggle_defeat`, nor `toggle_victory`, nor `reset` clears the bomb
registry — the charge stays registered after teardown. -/
theorem teardown_keeps_bomb_registered :
    (toggleDefeat ⟨[[(4, 10)]], [bombSpawn 4 10], true⟩).bombs = [bombSpawn 4 10]
    ∧ (toggleVictory ⟨[[(4, 10)]], [bombSpawn 4 10], true⟩).bombs ≠ []
    ∧ (gameReset ⟨[[(4, 10)]], [bombSpawn 4 10], true⟩).bombs ≠ [] := by
  refine ⟨rfl, ?_, ?_⟩ <;> decide

/-- Claim C9 (amended): teardown (`reset`, `toggle_victory`,
`toggle_defeat`) empties every named entity collection and sets the
running flag, but leaves the global bomb registry exactly as it was, so
registered charges leak into the next session. -/
theorem teardown_empties_groups_not_registry (s : EngineState) :
    (gameReset s).bombs = s.bombs
    ∧ (toggleVictory s).bombs = s.bombs
    ∧ (toggleDefeat s).bombs = s.bombs
    ∧ (gameReset s).entities.all List.isEmpty = true
    ∧ (toggleVictory s).entities.all List.isEmpty = true
    ∧ (toggleDefeat s).entities.all List.isEmpty = true
    ∧ (gameReset s).running = true
    ∧ (toggleVictory s).running = false
    ∧ (toggleDefeat s).running = false := by
  refine ⟨rfl, rfl, rfl, ?_, ?_, ?_, rfl, rfl, rfl⟩ <;>
    simp [gameReset, toggleVictory, toggleDefeat, emptyGroups, List.all_eq_true]

/-- The respawn rejection loop's postcondition: the chosen coordinate is
outside the body. -/
theorem respawnLoop_not_mem (body : List Coord) (ps : List Coord) (c : Coord)
    (h : respawnLoop body ps = some c) : c ∉ body := by
  induction ps with
  | nil => exact absurd h (by simp [respawnLoop])
  | cons p ps ih =>
    by_cases hp : p ∈ body
    · exact ih (by simpa [respawnLoop, hp] using h)
    · have : p = c := by simpa [respawnLoop, hp] using h
      exact this ▸ hp

/-- Claim C6 (counterexample): with body `[(4,5),(4,4),(4,3)]` moving down
and food at `(4,6)`, the movement frame prepends the new head `(4,6)` —
which equals the food's coordinate — yet the tail `(4,3)` IS removed on
that same step and the body still has length 3, because `check_eat` runs
before `move` and `growing` is not yet set. -/
theorem snake_eat_same_step_refuted :
    snakeFrame true [] ⟨[(4, 5), (4, 4), (4, 3)], (4, 6), false, Direction.down⟩
        = some ⟨[(4, 6), (4, 5), (4, 4)], (4, 6), false, Direction.down⟩
    ∧ ([((4 : ℤ), (6 : ℤ)), (4, 5), (4, 4)].headD (0, 0) = ((4 : ℤ), (6 : ℤ)))
    ∧ ([((4 : ℤ), (6 : ℤ)), (4, 5), (4, 4)].length = 3)
    ∧ (((4 : ℤ), (3 : ℤ)) ∉ [((4 : ℤ), (6 : ℤ)), (4, 5), (4, 4)]) := by
  refine ⟨by decide, by decide, by decide, by decide⟩

/-- Claim C6 (amended): the new head (old head plus direction vector) is
prepended each movement step, but eat detection is `check_eat`, which runs
at frame start: the tail is removed on the step where the head lands on
the food, then `check_eat` on the following frame sets `growing` and
respawns the food at a coordinate avoiding the body, and the tail is kept
at the NEXT movement step — the body grows from 3 to 4 one movement step
after eating. -/
theorem snake_eat_delayed_growth :
    (∀ (ps : List Coord) (s : SnakeState),
      s.body.headD (0, 0) ≠ s.food → checkEat ps s = some s)
    ∧ (∀ (ps : List Coord) (s : SnakeState) (c : Coord),
      s.body.headD (0, 0) = s.food → respawnLoop s.body ps = some c →
        checkEat ps s = some { s with growing := true, food := c } ∧ c ∉ s.body)
    ∧ (∀ s : SnakeState, s.growing = true →
      (bodyMove s).body
          = ((CONVERT s.dir).1 + (s.body.headD (0, 0)).1,
              (CONVERT s.dir).2 + (s.body.headD (0, 0)).2) :: s.body
        ∧ (bodyMove s).body.length = s.body.length + 1)
    ∧ (∀ s : SnakeState, s.growing = false →
      (bodyMove s).body
          = (((CONVERT s.dir).1 + (s.body.headD (0, 0)).1,
              (CONVERT s.dir).2 + (s.body.headD (0, 0)).2) :: s.body).dropLast)
    ∧ (snakeFrame false [(0, 0)] ⟨[(4, 6), (4, 5), (4, 4)], (4, 6), false, Direction.down⟩
        = some ⟨[(4, 6), (4, 5), (4, 4)], (0, 0), true, Direction.down⟩)
    ∧ (snakeFrame true [] ⟨[(4, 6), (4, 5), (4, 4)], (0, 0), true, Direction.down⟩
        = some ⟨[(4, 7), (4, 6), (4, 5), (4, 4)], (0, 0), false, Direction.down⟩) := by
  refine ⟨?_, ?_, ?_, ?_, by decide, by decide⟩
  · intro ps s h
    simp only [checkEat]
    rw [if_neg h]
  · intro ps s c hh hr
    refine ⟨?_, respawnLoop_not_mem s.body ps c hr⟩
    simp only [checkEat, hr]
    rw [if_pos hh]
  · intro s hg
    refine ⟨?_, ?_⟩ <;> simp [bodyMove, hg]
  · intro s hg
    simp only [bodyMove, hg]
    rfl

/-- Claim C6 witness: the general statements applied at concrete states —
no-eat frame, eat-detection with respawn avoiding the body, growth step
keeping the tail, and non-growth step dropping it. -/
theorem snake_eat_delayed_growth_witness :
    checkEat [] ⟨[(4, 5)], (9, 9), false, Direction.down⟩
        = some ⟨[(4, 5)], (9, 9), false, Direction.down⟩
    ∧ (checkEat [(7, 7)] ⟨[(4, 5)], (4, 5), false, Direction.down⟩
        = some ⟨[(4, 5)], (7, 7), true, Direction.down⟩
      ∧ ((7, 7) : Coord) ∉ [((4 : ℤ), (5 : ℤ))])
    ∧ (bodyMove ⟨[(4, 5)], (9, 9), true, Direction.down⟩).body.length = 2
    ∧ (bodyMove ⟨[(4, 5), (4, 4)], (9, 9), false, Direction.down⟩).body
        = [((4 : ℤ), (6 : ℤ)), (4, 5)] := by
  obtain ⟨hne, heat, hgrow, hnogrow, _, _⟩ := snake_eat_delayed_growth
  refine ⟨hne [] _ (by decide), ?_, ?_, ?_⟩
  · have h := heat [(7, 7)] ⟨[(4, 5)], (4, 5), false, Direction.down⟩ (7, 7) rfl (by decide)
    exact ⟨h.1, h.2⟩
  · have h := hgrow ⟨[(4, 5)], (9, 9), true, Direction.down⟩ rfl
    rw [h.2]
    rfl
  · have h := hnogrow ⟨[(4, 5), (4, 4)], (9, 9), false, Direction.down⟩ rfl
    rw [h]
    decide

/-- Row counts after one clearing step: the cleared row's blocks are gone
and every row at or above `b` now holds what was one row higher; rows
below `b` are untouched. -/
theorem rowCount_clearRow (s : Fallen) (b r : ℤ) :
    rowCount (clearRow b s) r = if r ≤ b then rowCount s (r - 1) else rowCount s r := by
  unfold rowCount clearRow
  rw [List.countP_map, List.countP_filter]
  split
  all_goals
    rename_i hrb
    apply List.countP_congr
    intro a _
    by_cases hab : a.2 < b
    · simp only [Function.comp_apply, if_pos hab, Bool.and_eq_true, decide_eq_true_eq]
      omega
    · simp only [Function.comp_apply, if_neg hab, Bool.and_eq_true, decide_eq_true_eq]
      omega

/-- One clearing step removes exactly the cleared row's blocks. -/
theorem length_clearRow (s : Fallen) (b : ℤ) :
    s.length = (clearRow b s).length + rowCount s b := by
  unfold clearRow rowCount
  rw [List.length_map, ← List.countP_eq_length_filter]
  rw [List.length_eq_countP_add_countP (fun p : Coord => decide (¬ p.2 = b)) s]
  congr 1
  apply List.countP_congr
  intro a _
  simp only [decide_eq_true_eq]
  omega

/-- `full_lines` scans rows in increasing order. -/
theorem fullLines_pairwise (s : Fallen) : List.Pairwise (· < ·) (fullLines s) := by
  unfold fullLines
  apply List.Pairwise.filter
  refine List.Pairwise.map _ ?_ (List.pairwise_lt_range 20)
  intro a b h
  exact_mod_cast h

/-- Every row collected in `full_lines` has exactly 10 blocks. -/
theorem fullLines_full (s : Fallen) (b : ℤ) (hb : b ∈ fullLines s) :
    rowCount s b = 10 := by
  unfold fullLines at hb
  exact of_decide_eq_true (List.mem_filter.mp hb).2

/-- When every fallen block sits on a row in `[0, 20)`, every row holding
exactly 10 blocks is collected in `full_lines`. -/
theorem fullLines_complete (s : Fallen) (hin : ∀ c ∈ s, 0 ≤ c.2 ∧ c.2 < 20)
    (r : ℤ) (hr : rowCount s r = 10) : r ∈ fullLines s := by
  have hpos : 0 < List.countP (fun p => decide (p.2 = r)) s := by
    unfold rowCount at hr
    omega
  obtain ⟨a, ha, hpa⟩ := List.countP_pos_iff.mp hpos
  have ha2 : a.2 = r := of_decide_eq_true hpa
  have hbound := hin a ha
  unfold fullLines
  refine List.mem_filter.mpr ⟨?_, decide_eq_true hr⟩
  refine List.mem_map.mpr ⟨r.toNat, List.mem_range.mpr ?_, ?_⟩
  · omega
  · omega

/-- The clearing loop over a sorted list of rows that are exactly the
10-block rows leaves no 10-block row behind and removes 10 blocks per
processed row. -/
theorem foldClear_spec (L : List ℤ) :
    ∀ s : Fallen, List.Pairwise (· < ·) L →
      (∀ b ∈ L, rowCount s b = 10) →
      (∀ r : ℤ, rowCount s r = 10 → r ∈ L) →
      (∀ r : ℤ, rowCount (L.foldl (fun acc b => clearRow b acc) s) r ≠ 10)
        ∧ s.length = (L.foldl (fun acc b => clearRow b acc) s).length + 10 * L.length := by
  induction L with
  | nil =>
    intro s _ _ hall
    refine ⟨fun r h => ?_, by simp⟩
    simpa using hall r h
  | cons b L ih =>
    intro s hsort hfull hall
    obtain ⟨hmin, hsort1⟩ := List.pairwise_cons.mp hsort
    have hb : rowCount s b = 10 := hfull b (List.mem_cons_self b L)
    have hfull1 : ∀ x ∈ L, rowCount (clearRow b s) x = 10 := by
      intro x hx
      rw [rowCount_clearRow, if_neg (by have := hmin x hx; omega)]
      exact hfull x (List.mem_cons_of_mem b hx)
    have hall1 : ∀ r : ℤ, rowCount (clearRow b s) r = 10 → r ∈ L := by
      intro r hr
      rw [rowCount_clearRow] at hr
      by_cases hrb : r ≤ b
      · rw [if_pos hrb] at hr
        rcases List.mem_cons.mp (hall (r - 1) hr) with h | h
        · omega
        · have := hmin _ h
          omega
      · rw [if_neg hrb] at hr
        rcases List.mem_cons.mp (hall r hr) with h | h
        · omega
        · exact h
    have hrec := ih (clearRow b s) hsort1 hfull1 hall1
    rw [List.foldl_cons]
    refine ⟨hrec.1, ?_⟩
    have hlen := length_clearRow s b
    rw [hb] at hlen
    have h2 := hrec.2
    simp only [List.length_cons]
    omega

/-- Claim C2: starting from any fallen structure whose blocks lie on rows
in `[0, 20)`, after `remove_full_lines` no row holds exactly 10 blocks,
and the number of blocks removed is `10 ×` the returned cleared-row
count. -/
theorem removeFullLines_no_full_rows (s : Fallen)
    (hin : ∀ c ∈ s, 0 ≤ c.2 ∧ c.2 < 20) :
    (∀ r : ℤ, rowCount (removeFullLines s).1 r ≠ 10)
    ∧ s.length = (removeFullLines s).1.length + 10 * (removeFullLines s).2 :=
  foldClear_spec (fullLines s) s (fullLines_pairwise s)
    (fun b hb => fullLines_full s b hb) (fun r hr => fullLines_complete s hin r hr)

/-- Claim C2 witness: a fallen structure with a full row 19 and three
blocks on row 18: after clearing, neither row 19 nor row 18 has 10
blocks, and 10 × 1 blocks were removed. -/
theorem removeFullLines_no_full_rows_witness :
    rowCount (removeFullLines [((0 : ℤ), (19 : ℤ)), (1, 19), (2, 19), (3, 19), (4, 19),
        (5, 19), (6, 19), (7, 19), (8, 19), (9, 19), (0, 18), (1, 18), (2, 18)]).1 19 ≠ 10
    ∧ ([((0 : ℤ), (19 : ℤ)), (1, 19), (2, 19), (3, 19), (4, 19),
        (5, 19), (6, 19), (7, 19), (8, 19), (9, 19), (0, 18), (1, 18), (2, 18)] : Fallen).length
        = (removeFullLines [((0 : ℤ), (19 : ℤ)), (1, 19), (2, 19), (3, 19), (4, 19),
            (5, 19), (6, 19), (7, 19), (8, 19), (9, 19), (0, 18), (1, 18), (2, 18)]).1.length
          + 10 * (removeFullLines [((0 : ℤ), (19 : ℤ)), (1, 19), (2, 19), (3, 19), (4, 19),
            (5, 19), (6, 19), (7, 19), (8, 19), (9, 19), (0, 18), (1, 18), (2, 18)]).2 := by
  have h := removeFullLines_no_full_rows [((0 : ℤ), (19 : ℤ)), (1, 19), (2, 19), (3, 19),
    (4, 19), (5, 19), (6, 19), (7, 19), (8, 19), (9, 19), (0, 18), (1, 18), (2, 18)]
    (by decide)
  exact ⟨h.1 19, h.2⟩
